import Mathlib

/-!
Verification of the TFM (TelegramFileManager) client subsystem of this
repository: the pagination aggregation engine of
`src/library/tfm/tfmapiclient.cpp` and the download/cache validator of
`src/library/tfm/tfmtrackmodel.cpp`.

The C++ code is shallowly embedded: Qt's JSON values become the inductive
`Json`; `QMap<QString, PaginatedRequest>` becomes an association list;
signal emissions (`emit ...`) and issued network GETs become explicit
output lists (`ApiEvent`, `NetRequest`) returned by each modelled member
function together with the successor state.  Machine integers (`qint64`,
`int`) are modelled as `Int`; byte payloads as `List Nat`.
-/

/-! ## A model of Qt JSON values

`QJsonValue` can be Null, Bool, Double, String, Array or Object.  A field
lookup on a `QJsonObject` that misses returns the Undefined value, which we
model as `Option.none` at the lookup site.  Numbers are restricted to
integers (the shapes the TFM protocol uses). -/

inductive Json where
  | null : Json
  | bool (b : Bool) : Json
  | num (n : Int) : Json
  | str (s : String) : Json
  | arr (elems : List Json) : Json
  | obj (fields : List (String × Json)) : Json

/-- QJsonObject::value(key): first binding wins; Undefined (`none`) if the
key is missing. -/
def objValue (fields : List (String × Json)) (key : String) : Option Json :=
  match fields with
  | [] => none
  | (k, v) :: rest => if k = key then some v else objValue rest key

/-- QJsonValue::toObject(): non-objects convert to the empty object. -/
def jsonToObject : Json → List (String × Json)
  | .obj fields => fields
  | _ => []

/-- QJsonValue::toArray(): non-arrays convert to the empty array. -/
def jsonToArray : Json → List Json
  | .arr elems => elems
  | _ => []

/-- QJsonValue::toBool(defaultValue): non-bools yield the default. -/
def toBoolD (v : Option Json) (d : Bool) : Bool :=
  match v with
  | some (.bool b) => b
  | _ => d

/-- QJsonValue::toInt(defaultValue): non-numbers yield the default. -/
def toIntD (v : Option Json) (d : Int) : Int :=
  match v with
  | some (.num n) => n
  | _ => d

/-- QJsonValue::toString(): non-strings convert to the empty string. -/
def toStringD (v : Option Json) : String :=
  match v with
  | some (.str s) => s
  | _ => ""

/-- QJsonValue::toVariant().toLongLong(): numbers pass through, numeric
strings are parsed, everything else converts to 0. -/
def toLongLongD (v : Option Json) : Int :=
  match v with
  | some (.num n) => n
  | some (.str s) => (s.toInt?).getD 0
  | _ => 0

/-! ## Data model (tfmapiclient.h) -/

/-- Channel struct of tfmapiclient.h (lines 18-27). -/
structure Channel where
  id : Int := 0
  name : String := ""
  imageUrl : String := ""
  isOwner : Bool := false
  canPost : Bool := false
  isFavorite : Bool := false
  type : String := ""
  fileCount : Int := 0
deriving Repr, DecidableEq

/-- Track struct of tfmapiclient.h (lines 30-47).  The two QDateTime
fields are kept as the raw ISO strings they are parsed from. -/
structure Track where
  id : String := ""
  channelId : String := ""
  name : String := ""
  path : String := ""
  parentId : String := ""
  size : Int := 0
  type : String := ""
  category : String := ""
  isFile : Bool := false
  isFolder : Bool := false
  hasChildren : Bool := false
  streamUrl : String := ""
  downloadUrl : String := ""
  thumbnailUrl : String := ""
  dateCreated : String := ""
  dateModified : String := ""
deriving Repr, DecidableEq

/-- Folder struct of tfmapiclient.h (lines 50-57). -/
structure Folder where
  id : String := ""
  name : String := ""
  path : String := ""
  parentId : String := ""
  isFolder : Bool := false
  hasChildren : Bool := false
deriving Repr, DecidableEq

/-- PaginationInfo struct of tfmapiclient.h (lines 171-178), with the
field defaults used when a field is absent from the response. -/
structure PaginationInfo where
  page : Int := 1
  pageSize : Int := 100
  totalItems : Int := 0
  totalPages : Int := 1
  hasNext : Bool := false
  hasPrevious : Bool := false
deriving Repr, DecidableEq

/-- PaginatedRequest struct of tfmapiclient.h (lines 193-200): the
per-key aggregation state. -/
structure PaginatedRequest where
  channelId : String := ""
  folderId : String := ""
  accumulatedTracks : List Track := []
  currentPage : Int := 1
  pageSize : Int := 100
  totalPages : Int := 1
deriving Repr, DecidableEq

/-! ## Association-list model of QMap<QString, PaginatedRequest> -/

/-- QMap lookup (corresponds to contains / const access). -/
def lookupKey (key : String) : List (String × PaginatedRequest) → Option PaginatedRequest
  | [] => none
  | (k, v) :: rest => if k = key then some v else lookupKey key rest

/-- QMap::remove(key). -/
def removeKey (key : String) (m : List (String × PaginatedRequest)) :
    List (String × PaginatedRequest) :=
  m.filter (fun kv => kv.1 ≠ key)

/-- QMap insertion / update through operator[]. -/
def insertKey (key : String) (v : PaginatedRequest)
    (m : List (String × PaginatedRequest)) : List (String × PaginatedRequest) :=
  removeKey key m ++ [(key, v)]

/-- Mutable state of TFMApiClient relevant to the claims: the configured
server URL, the local folder, and the per-key pagination map.  The
m_pendingReplies list is used by the source only for cancellation and is
not modelled; issued requests appear as explicit outputs instead. -/
structure ClientState where
  serverUrl : String := ""
  localFolder : String := ""
  paginatedRequests : List (String × PaginatedRequest) := []
deriving Repr, DecidableEq

/-- One network GET issued by the client, together with the properties the
source stores on the pending QNetworkReply (requestType, channelId,
folderId, page, folderPath). -/
structure NetRequest where
  endpoint : String := ""
  requestType : String := ""
  channelId : String := ""
  folderId : String := ""
  page : Int := 1
  folderPath : String := ""
deriving Repr, DecidableEq

/-- Signals emitted by TFMApiClient (tfmapiclient.h, signals section). -/
inductive ApiEvent where
  | apiError (msg : String)
  | requestStarted
  | channelsLoaded (channels : List Channel)
  | tracksLoaded (channelId : String) (tracks : List Track)
  | folderContentsLoaded (channelId folderId : String) (items : List Track)
  | favoritesLoaded (favorites : List Channel)
  | localFoldersLoaded (folders : List Folder)
  | localTracksLoaded (folderPath : String) (tracks : List Track)
  | searchResultsReady (tracks : List Track)
deriving Repr, DecidableEq

/-- Result of one modelled member-function call: successor state, emitted
signals in order, and network requests issued in order. -/
abbrev ClientStep := ClientState × List ApiEvent × List NetRequest

/-- Error message of the configuration gate (tr("TFM server URL is not
configured")). -/
def cfgErrMsg : String := "TFM server URL is not configured"

/-! ## Parsers (tfmapiclient.cpp lines 474-534) -/

/-- TFMApiClient::parseChannel (tfmapiclient.cpp lines 474-485). -/
def parseChannel (json : List (String × Json)) : Channel :=
  { id := toLongLongD (objValue json "id")
    name := toStringD (objValue json "name")
    imageUrl := toStringD (objValue json "imageUrl")
    isOwner := toBoolD (objValue json "isOwner") false
    canPost := toBoolD (objValue json "canPost") false
    isFavorite := toBoolD (objValue json "isFavorite") false
    type := toStringD (objValue json "type")
    fileCount := toIntD (objValue json "fileCount") 0 }

/-- TFMApiClient::parseTrack (tfmapiclient.cpp lines 487-506). -/
def parseTrack (json : List (String × Json)) : Track :=
  { id := toStringD (objValue json "id")
    channelId := ""
    name := toStringD (objValue json "name")
    path := toStringD (objValue json "path")
    parentId := toStringD (objValue json "parentId")
    size := toLongLongD (objValue json "size")
    type := toStringD (objValue json "type")
    category := toStringD (objValue json "category")
    isFile := toBoolD (objValue json "isFile") false
    isFolder := toBoolD (objValue json "isFolder") false
    hasChildren := toBoolD (objValue json "hasChildren") false
    streamUrl := toStringD (objValue json "streamUrl")
    downloadUrl := toStringD (objValue json "downloadUrl")
    thumbnailUrl := toStringD (objValue json "thumbnailUrl")
    dateCreated := toStringD (objValue json "dateCreated")
    dateModified := toStringD (objValue json "dateModified") }

/-- TFMApiClient::parseFolder (tfmapiclient.cpp lines 508-517). -/
def parseFolder (json : List (String × Json)) : Folder :=
  { id := toStringD (objValue json "id")
    name := toStringD (objValue json "name")
    path := toStringD (objValue json "path")
    parentId := toStringD (objValue json "parentId")
    isFolder := toBoolD (objValue json "isFolder") false
    hasChildren := toBoolD (objValue json "hasChildren") false }

/-- TFMApiClient::parsePagination (tfmapiclient.cpp lines 519-534): the
struct defaults survive when the pagination value is absent or not an
object, and each toInt/toBool default applies per missing field. -/
def parsePagination (responseObj : List (String × Json)) : PaginationInfo :=
  match objValue responseObj "pagination" with
  | some (.obj pagination) =>
      { page := toIntD (objValue pagination "page") 1
        pageSize := toIntD (objValue pagination "pageSize") 100
        totalItems := toIntD (objValue pagination "totalItems") 0
        totalPages := toIntD (objValue pagination "totalPages") 1
        hasNext := toBoolD (objValue pagination "hasNext") false
        hasPrevious := toBoolD (objValue pagination "hasPrevious") false }
  | _ => {}

/-! ## Fetch operations (tfmapiclient.cpp lines 66-220)

Each member function is modelled as `ClientState → args → ClientStep`.
QString::arg substitutions in endpoint construction become string
concatenation. -/

/-- Percent-encoding of QUrl::toPercentEncoding: UTF-8 bytes, unreserved
characters (ALPHA / DIGIT / - . _ ~) kept, everything else %HH. -/
def hexDigitChar (n : Nat) : Char :=
  if n < 10 then Char.ofNat (48 + n) else Char.ofNat (55 + n)

/-- Unreserved bytes kept verbatim by QUrl::toPercentEncoding. -/
def isUnreservedByte (b : Nat) : Bool :=
  (65 ≤ b && b ≤ 90) || (97 ≤ b && b ≤ 122) || (48 ≤ b && b ≤ 57) ||
    b = 45 || b = 46 || b = 95 || b = 126

/-- QUrl::toPercentEncoding over the UTF-8 bytes of the string. -/
def toPercentEncoding (s : String) : String :=
  String.mk (((s.toUTF8.toList.map (fun b => b.toNat)).map (fun b =>
    if isUnreservedByte b then [Char.ofNat b]
    else ['%', hexDigitChar (b / 16), hexDigitChar (b % 16)])).flatten)

/-- TFMApiClient::fetchChannels (tfmapiclient.cpp lines 66-77). -/
def fetchChannels (st : ClientState) : ClientStep :=
  if st.serverUrl = "" then
    (st, [.apiError cfgErrMsg], [])
  else
    (st, [.requestStarted],
      [{ endpoint := "/api/mobile/channels", requestType := "fetchChannels" }])

/-- Endpoint of TFMApiClient::fetchChannelTracksPage. -/
def channelFilesEndpoint (channelId : String) (page pageSize : Int) : String :=
  "/api/mobile/channels/" ++ channelId ++ "/files?Page=" ++ toString page ++
    "&PageSize=" ++ toString pageSize

/-- TFMApiClient::fetchChannelTracksPage (tfmapiclient.cpp lines 97-111):
emits requestStarted and issues the page GET, tagging the reply with
requestType, channelId and page. -/
def fetchChannelTracksPage (st : ClientState) (channelId : String)
    (page pageSize : Int) : ClientStep :=
  (st, [.requestStarted],
    [{ endpoint := channelFilesEndpoint channelId page pageSize
       requestType := "fetchChannelTracks"
       channelId := channelId
       page := page }])

/-- TFMApiClient::fetchChannelTracks (tfmapiclient.cpp lines 79-95): after
the configuration gate, any previous accumulation for key
"channel:" ++ channelId is removed and fetching restarts at page 1. -/
def fetchChannelTracks (st : ClientState) (channelId : String)
    (offset limit : Int) : ClientStep :=
  let _ := offset
  if st.serverUrl = "" then
    (st, [.apiError cfgErrMsg], [])
  else
    let requestKey := "channel:" ++ channelId
    let st' := { st with paginatedRequests := removeKey requestKey st.paginatedRequests }
    fetchChannelTracksPage st' channelId 1 limit

/-- Endpoint of TFMApiClient::fetchFolderContentsPage. -/
def folderFilesEndpoint (channelId folderId : String) (page pageSize : Int) : String :=
  "/api/mobile/channels/" ++ channelId ++ "/files?folderId=" ++ folderId ++
    "&Page=" ++ toString page ++ "&PageSize=" ++ toString pageSize

/-- TFMApiClient::fetchFolderContentsPage (tfmapiclient.cpp lines 131-147). -/
def fetchFolderContentsPage (st : ClientState) (channelId folderId : String)
    (page pageSize : Int) : ClientStep :=
  (st, [.requestStarted],
    [{ endpoint := folderFilesEndpoint channelId folderId page pageSize
       requestType := "fetchFolderContents"
       channelId := channelId
       folderId := folderId
       page := page }])

/-- TFMApiClient::fetchFolderContents (tfmapiclient.cpp lines 113-129). -/
def fetchFolderContents (st : ClientState) (channelId folderId : String)
    (offset limit : Int) : ClientStep :=
  let _ := offset
  if st.serverUrl = "" then
    (st, [.apiError cfgErrMsg], [])
  else
    let requestKey := "folder:" ++ channelId ++ ":" ++ folderId
    let st' := { st with paginatedRequests := removeKey requestKey st.paginatedRequests }
    fetchFolderContentsPage st' channelId folderId 1 limit

/-- TFMApiClient::fetchFavorites (tfmapiclient.cpp lines 149-160). -/
def fetchFavorites (st : ClientState) : ClientStep :=
  if st.serverUrl = "" then
    (st, [.apiError cfgErrMsg], [])
  else
    (st, [.requestStarted],
      [{ endpoint := "/api/mobile/channels/favorites", requestType := "fetchFavorites" }])

/-- TFMApiClient::fetchLocalFolders (tfmapiclient.cpp lines 162-173). -/
def fetchLocalFolders (st : ClientState) : ClientStep :=
  if st.serverUrl = "" then
    (st, [.apiError cfgErrMsg], [])
  else
    (st, [.requestStarted],
      [{ endpoint := "/api/mobile/files/local", requestType := "fetchLocalFolders" }])

/-- TFMApiClient::fetchLocalTracks (tfmapiclient.cpp lines 175-202). -/
def fetchLocalTracks (st : ClientState) (folderPath : String) : ClientStep :=
  if st.serverUrl = "" then
    (st, [.apiError cfgErrMsg], [])
  else
    let endpoint :=
      if folderPath = "" then
        "/api/mobile/files/local?filter=audio_folders&page=1&pageSize=100&sortBy=name&sortDescending=false"
      else
        "/api/mobile/files/local?Path=" ++ toPercentEncoding folderPath ++
          "&filter=audio_folders&page=1&pageSize=100&sortBy=name&sortDescending=false"
    (st, [.requestStarted],
      [{ endpoint := endpoint
         requestType := "fetchLocalTracks"
         folderPath := folderPath }])

/-- TFMApiClient::searchTracks (tfmapiclient.cpp lines 204-220).  The page
number is offset / limit + 1 with C++ integer division (truncation toward
zero, hence Int.tdiv); the source divides without guarding limit = 0. -/
def searchTracks (st : ClientState) (query : String) (offset limit : Int) : ClientStep :=
  if st.serverUrl = "" then
    (st, [.apiError cfgErrMsg], [])
  else
    (st, [.requestStarted],
      [{ endpoint := "/api/mobile/channels/0/files?SearchText=" ++ query ++
           "&Page=" ++ toString (Int.tdiv offset limit + 1) ++
           "&PageSize=" ++ toString limit
         requestType := "searchTracks" }])

/-! ## Response handling (tfmapiclient.cpp lines 274-472) -/

/-- Reply content as handleResponse sees it: the properties stored on the
QNetworkReply when the request was issued, plus the payload, which either
parsed to a JSON document or failed with a QJsonParseError string. -/
structure Reply where
  requestType : String := ""
  channelId : String := ""
  folderId : String := ""
  page : Int := 1
  folderPath : String := ""
  body : Except String Json := .ok .null

/-- Reply to a previously issued request: the source copies requestType,
channelId, folderId, page and folderPath from the request onto the reply. -/
def replyTo (req : NetRequest) (body : Except String Json) : Reply :=
  { requestType := req.requestType
    channelId := req.channelId
    folderId := req.folderId
    page := req.page
    folderPath := req.folderPath
    body := body }

/-- QJsonDocument::object(): if the document does not hold an object the
empty object is returned. -/
def docObject : Json → List (String × Json)
  | .obj fields => fields
  | _ => []

/-- Item-array extraction shared by the fetchChannelTracks and
fetchFolderContents branches (tfmapiclient.cpp lines 321-329, 374-382):
the array may sit directly under data or nested under data.items. -/
def extractItemArray (dataVal : Option Json) : List Json :=
  match dataVal with
  | some (.arr elems) => elems
  | some (.obj dataObj) =>
      match objValue dataObj "items" with
      | some itemsVal => jsonToArray itemsVal
      | none => []
  | _ => []

/-- Parsing of one page of channel/folder items: each element converts to
an object, is parsed as a Track, and gets the caller's channelId stamped
on it (tfmapiclient.cpp lines 331-335, 384-388). -/
def stampTracks (channelId : String) (elems : List Json) : List Track :=
  elems.map (fun v => { parseTrack (jsonToObject v) with channelId := channelId })

/-- TFMApiClient::handleResponse (tfmapiclient.cpp lines 274-472) as a
state transformer.  A malformed payload or an envelope with success=false
returns early with a single apiError and no other effect. -/
def handleResponse (st : ClientState) (reply : Reply) : ClientStep :=
  match reply.body with
  | .error parseErr => (st, [.apiError ("JSON parse error: " ++ parseErr)], [])
  | .ok doc =>
    let responseObj := docObject doc
    let success := toBoolD (objValue responseObj "success") false
    if success = false then
      let e1 := toStringD (objValue responseObj "error")
      let e2 := if e1 = "" then toStringD (objValue responseObj "message") else e1
      let errorMsg := if e2 = "" then "Unknown API error" else e2
      (st, [.apiError errorMsg], [])
    else if reply.requestType = "fetchChannels" then
      let channels := (jsonToArray ((objValue responseObj "data").getD .null)).map
        (fun v => parseChannel (jsonToObject v))
      (st, [.channelsLoaded channels], [])
    else if reply.requestType = "fetchChannelTracks" then
      let channelId := reply.channelId
      let tracks := stampTracks channelId (extractItemArray (objValue responseObj "data"))
      let pagination := parsePagination responseObj
      let requestKey := "channel:" ++ channelId
      let prev :=
        match lookupKey requestKey st.paginatedRequests with
        | some pr => pr
        | none => { channelId := channelId }
      let pr : PaginatedRequest :=
        { prev with
          accumulatedTracks := prev.accumulatedTracks ++ tracks
          currentPage := pagination.page
          totalPages := pagination.totalPages }
      let st' := { st with paginatedRequests := insertKey requestKey pr st.paginatedRequests }
      if pagination.hasNext then
        fetchChannelTracksPage st' channelId (pagination.page + 1) pagination.pageSize
      else
        ({ st' with paginatedRequests := removeKey requestKey st'.paginatedRequests },
          [.tracksLoaded channelId pr.accumulatedTracks], [])
    else if reply.requestType = "fetchFolderContents" then
      let channelId := reply.channelId
      let folderId := reply.folderId
      let items := stampTracks channelId (extractItemArray (objValue responseObj "data"))
      let pagination := parsePagination responseObj
      let requestKey := "folder:" ++ channelId ++ ":" ++ folderId
      let prev :=
        match lookupKey requestKey st.paginatedRequests with
        | some pr => pr
        | none => { channelId := channelId, folderId := folderId }
      let pr : PaginatedRequest :=
        { prev with
          accumulatedTracks := prev.accumulatedTracks ++ items
          currentPage := pagination.page
          totalPages := pagination.totalPages }
      let st' := { st with paginatedRequests := insertKey requestKey pr st.paginatedRequests }
      if pagination.hasNext then
        fetchFolderContentsPage st' channelId folderId (pagination.page + 1) pagination.pageSize
      else
        ({ st' with paginatedRequests := removeKey requestKey st'.paginatedRequests },
          [.folderContentsLoaded channelId folderId pr.accumulatedTracks], [])
    else if reply.requestType = "fetchFavorites" then
      let favorites := (jsonToArray ((objValue responseObj "data").getD .null)).map
        (fun v => { parseChannel (jsonToObject v) with isFavorite := true })
      (st, [.favoritesLoaded favorites], [])
    else if reply.requestType = "fetchLocalFolders" then
      let itemsArr :=
        match objValue responseObj "data" with
        | some (.obj dataObj) => jsonToArray ((objValue dataObj "items").getD .null)
        | _ => []
      let folders := (itemsArr.filter
          (fun v => toBoolD (objValue (jsonToObject v) "isFolder") false)).map
        (fun v => parseFolder (jsonToObject v))
      (st, [.localFoldersLoaded folders], [])
    else if reply.requestType = "fetchLocalTracks" then
      let itemsArr :=
        match objValue responseObj "data" with
        | some (.obj dataObj) => jsonToArray ((objValue dataObj "items").getD .null)
        | _ => []
      let tracks := itemsArr.map (fun v => parseTrack (jsonToObject v))
      (st, [.localTracksLoaded reply.folderPath tracks], [])
    else if reply.requestType = "searchTracks" then
      let tracks := (jsonToArray ((objValue responseObj "data").getD .null)).map
        (fun v => parseTrack (jsonToObject v))
      (st, [.searchResultsReady tracks], [])
    else
      (st, [], [])

/-! ## Download/cache validator (tfmtrackmodel.cpp)

Identifiers and names are modelled as `List Char` here so that the
suffix-stripping logic of getTrack can be reasoned about directly; the
file system visible to the probe is the optional size of the single file
at the derived cache path. -/

/-- Sanitization of the external id in TFMTrackModel::getTrack
(tfmtrackmodel.cpp lines 70-74): path-separator-like characters become
underscores. -/
def sanitizeExternalId (externalId : List Char) : List Char :=
  externalId.map (fun c => if c = '/' ∨ c = '\\' ∨ c = ':' then '_' else c)

/-- Known audio extensions of TFMTrackModel::getFileExtension
(tfmtrackmodel.cpp lines 358-360). -/
def knownAudioExts : List (List Char) :=
  [".mp3".toList, ".flac".toList, ".wav".toList, ".ogg".toList,
   ".m4a".toList, ".aac".toList, ".opus".toList, ".wma".toList]

/-- QString::lastIndexOf of a character: index of the last occurrence, -1
if absent. -/
def lastIndexOfChar (s : List Char) (c : Char) : Int :=
  match (s.reverse).findIdx? (fun x => x = c) with
  | some i => (s.length : Int) - 1 - (i : Int)
  | none => -1

/-- Suffix of the name from its last dot, lowercased, if the dot position
is strictly positive and the result is a known audio extension
(tfmtrackmodel.cpp lines 354-363 and 367-377 share this shape). -/
def extFromName (s : List Char) : Option (List Char) :=
  let dotPos := lastIndexOfChar s '.'
  if dotPos > 0 then
    let ext := (s.drop dotPos.toNat).map Char.toLower
    if ext ∈ knownAudioExts then some ext else none
  else none

/-- TFMTrackModel::getFileExtension (tfmtrackmodel.cpp lines 352-381):
track name first, then the URL path, then the ".mp3" default.  The QUrl
path component of the url argument is taken as input. -/
def getFileExtension (trackName urlPath : List Char) : List Char :=
  match (if trackName = [] then none else extFromName trackName) with
  | some ext => ext
  | none =>
    match extFromName urlPath with
    | some ext => ext
    | none => ".mp3".toList

/-- QString::endsWith with Qt::CaseInsensitive, as used on the sanitized
id in TFMTrackModel::getTrack (tfmtrackmodel.cpp line 78). -/
def endsWithCI (s suffixChars : List Char) : Bool :=
  (suffixChars.map Char.toLower).isSuffixOf (s.map Char.toLower)

/-- Cache file name construction of TFMTrackModel::getTrack
(tfmtrackmodel.cpp lines 76-82): if the sanitized id already ends with the
extension (case-insensitively) that many trailing characters are dropped,
then the extension is appended. -/
def buildCacheFileName (sanitizedId fileExt : List Char) : List Char :=
  (if endsWithCI sanitizedId fileExt then
    sanitizedId.take (sanitizedId.length - fileExt.length)
  else sanitizedId) ++ fileExt

/-- Outcome of the cache probe of getTrack: the cached copy is reused, or
the track is treated as absent from the cache. -/
inductive CacheProbeOutcome where
  | reused
  | absent
deriving Repr, DecidableEq

/-- Cache probe of TFMTrackModel::getTrack (tfmtrackmodel.cpp lines
87-109).  The file system at the derived cache path is `Option Int` (the
size of the file if it exists).  A file is reused iff its size exceeds
1000 bytes and (no expected size is known, i.e. expectedSize <= 0, or the
size matches exactly); otherwise QFile::remove deletes it and the probe
reports absence.  The second component is the file system afterwards. -/
def cacheProbe (cachedFile : Option Int) (expectedSize : Int) :
    CacheProbeOutcome × Option Int :=
  match cachedFile with
  | some cachedSize =>
      if cachedSize > 1000 ∧ (expectedSize ≤ 0 ∨ cachedSize = expectedSize) then
        (.reused, some cachedSize)
      else
        (.absent, none)
  | none => (.absent, none)

/-! ## downloadTrackSync (tfmtrackmodel.cpp lines 210-350) -/

/-- Network outcome of the single GET performed by downloadTrackSync:
whether the 60 s timer fired first, whether QNetworkReply reported an
error, the HTTP status, the Content-Type header, the Content-Length
header converted with toLongLong (0 when absent), and the payload bytes. -/
structure DownloadReply where
  timedOut : Bool := false
  networkError : Bool := false
  statusCode : Int := 200
  contentType : String := ""
  contentLength : Int := 0
  data : List Nat := []
deriving Repr, DecidableEq

/-- Outcome of the local write attempted at the end of downloadTrackSync:
whether QFile::open succeeded, the count QFile::write returned, and the
on-disk size QFileInfo reports afterwards. -/
structure WriteOutcome where
  openOk : Bool := true
  writtenCount : Int := 0
  onDiskSize : Int := 0
deriving Repr, DecidableEq

/-- File-system side effects performed by downloadTrackSync. -/
inductive FsOp where
  | writeFile (path : String) (bytes : List Nat)
  | removeFile (path : String)
deriving Repr, DecidableEq

/-- Content-Type test of downloadTrackSync (tfmtrackmodel.cpp line 260):
QString::contains("text/html", Qt::CaseInsensitive). -/
def containsTextHtmlCI (contentType : String) : Bool :=
  decide (("text/html".toList) <:+: (contentType.toList.map Char.toLower))

/-- Truncation test of downloadTrackSync (tfmtrackmodel.cpp lines 281,
290): the source compares data.size() < limit * 0.99 where 0.99 is a C++
double; the comparison is modelled as the exact ratio 99/100. -/
def appearsTruncated (size limit : Int) : Bool :=
  100 * size < 99 * limit

/-- Audio signature sniff of downloadTrackSync (tfmtrackmodel.cpp lines
296-315): fLaC, ID3 or an MPEG frame sync, OggS, or RIFF in the first
bytes.  Its failure is logged but never fatal (lines 317-321), so the
result does not influence the returned path. -/
def validAudioSignature (data : List Nat) : Bool :=
  match data with
  | b0 :: b1 :: b2 :: b3 :: _ =>
      ([b0, b1, b2, b3] = [0x66, 0x4C, 0x61, 0x43]) ||
      ([b0, b1, b2] = [0x49, 0x44, 0x33]) ||
      (b0 = 0xFF && (b1 / 32) % 8 = 7) ||
      ([b0, b1, b2, b3] = [0x4F, 0x67, 0x67, 0x53]) ||
      ([b0, b1, b2, b3] = [0x52, 0x49, 0x46, 0x46])
  | _ => false

/-- TFMTrackModel::downloadTrackSync (tfmtrackmodel.cpp lines 210-350):
returns the destination path on success and the empty result (`none`)
otherwise, together with the file-system operations performed, in order.
Every failure before the write step performs no file-system operation at
all; a failed write verification removes the partial file. -/
def downloadTrackSync (reply : DownloadReply) (write : WriteOutcome)
    (destPath : String) (expectedSize : Int) : Option String × List FsOp :=
  if reply.timedOut then (none, [])
  else if reply.networkError then (none, [])
  else if reply.statusCode ≠ 200 then (none, [])
  else if containsTextHtmlCI reply.contentType then (none, [])
  else
    let data := reply.data
    let size : Int := data.length
    if data = [] then (none, [])
    else if reply.contentLength > 0 ∧ size ≠ reply.contentLength ∧
        appearsTruncated size reply.contentLength then (none, [])
    else if expectedSize > 0 ∧ size ≠ expectedSize ∧
        appearsTruncated size expectedSize then (none, [])
    else if !write.openOk then (none, [])
    else if write.writtenCount ≠ size then
      (none, [.writeFile destPath data, .removeFile destPath])
    else if write.onDiskSize ≠ size then
      (none, [.writeFile destPath data, .removeFile destPath])
    else
      (some destPath, [.writeFile destPath data])

/-! ## Association-list lemmas -/

lemma lookupKey_insertKey_self (key : String) (v : PaginatedRequest)
    (m : List (String × PaginatedRequest)) :
    lookupKey key (insertKey key v m) = some v := by
  induction m with
  | nil => simp [insertKey, removeKey, lookupKey]
  | cons kv rest ih =>
      by_cases hk : kv.1 = key
      · simpa [insertKey, removeKey, lookupKey, hk] using ih
      · simpa [insertKey, removeKey, lookupKey, hk] using ih

lemma lookupKey_removeKey_self (key : String) (m : List (String × PaginatedRequest)) :
    lookupKey key (removeKey key m) = none := by
  induction m with
  | nil => simp [removeKey, lookupKey]
  | cons kv rest ih =>
      by_cases hk : kv.1 = key
      · simpa [removeKey, lookupKey, hk] using ih
      · simpa [removeKey, lookupKey, hk] using ih

lemma removeKey_insertKey (key : String) (v : PaginatedRequest)
    (m : List (String × PaginatedRequest)) :
    removeKey key (insertKey key v m) = removeKey key m := by
  induction m with
  | nil => simp [insertKey, removeKey]
  | cons kv rest ih =>
      by_cases hk : kv.1 = key
      · simp only [insertKey, removeKey] at ih ⊢
        simp [hk, ih]
      · simp only [insertKey, removeKey] at ih ⊢
        simp [hk, ih]

lemma removeKey_of_lookupKey_none (key : String) (m : List (String × PaginatedRequest))
    (h : lookupKey key m = none) : removeKey key m = m := by
  induction m with
  | nil => simp [removeKey]
  | cons kv rest ih =>
      by_cases hk : kv.1 = key
      · simp [lookupKey, hk] at h
      · have h' : lookupKey key rest = none := by
          cases kv with
          | mk k v =>
            simp at hk
            simp [lookupKey, hk] at h
            exact h
        simp [removeKey, hk] at ih ⊢
        exact ih h'

/-! ## Scenario support definitions

Named envelopes, replies and states used by the theorems below to describe
concrete page runs of the aggregator. -/

/-- Response envelope for one page of items: success=true, the item array
directly under data, and a pagination object carrying page, totalPages and
hasNext. -/
def pageEnvelope (items : List Json) (page totalPages : Int) (hasNext : Bool) : Json :=
  .obj [("success", .bool true), ("data", .arr items),
        ("pagination", .obj [("page", .num page), ("totalPages", .num totalPages),
                             ("hasNext", .bool hasNext)])]

/-- Reply carrying a channel-tracks page response, with the properties
fetchChannelTracksPage stores on the issued request. -/
def tracksPageReply (channelId : String) (page : Int) (body : Except String Json) : Reply :=
  { requestType := "fetchChannelTracks", channelId := channelId, page := page, body := body }

/-- Aggregation state after page 1 of a two-page channel fetch: page-1
items accumulated, currentPage 1, totalPages 2. -/
def pageOnePR (channelId : String) (items1 : List Json) : PaginatedRequest :=
  { channelId := channelId, accumulatedTracks := stampTracks channelId items1,
    currentPage := 1, totalPages := 2 }

/-- Client state after handling page 1 of a two-page channel fetch. -/
def pageOneState (st : ClientState) (channelId : String) (items1 : List Json) : ClientState :=
  { st with paginatedRequests :=
      insertKey ("channel:" ++ channelId) (pageOnePR channelId items1) st.paginatedRequests }

/-- The first-page request issued by fetchChannelTracks with page size
lim. -/
def firstPageRequest (channelId : String) (pageSize : Int) : NetRequest :=
  { endpoint := channelFilesEndpoint channelId 1 pageSize,
    requestType := "fetchChannelTracks", channelId := channelId, page := 1 }

/-- The continuation request for page 2 issued from inside handleResponse
(the pagination default pageSize 100 is used). -/
def pageTwoRequest (channelId : String) : NetRequest :=
  { endpoint := channelFilesEndpoint channelId 2 100,
    requestType := "fetchChannelTracks", channelId := channelId, page := 2 }

/-- State of the client after fetchChannelTracks cleared the key
"channel:" ++ channelId. -/
def resetState (st : ClientState) (channelId : String) : ClientState :=
  { st with paginatedRequests := removeKey ("channel:" ++ channelId) st.paginatedRequests }

/-- Concrete initial client used in scenario theorems. -/
def cexClient0 : ClientState := { serverUrl := "http://server" }

/-- Item of the first fetch's page 1 in the stale-reply scenario. -/
def cexItemA : Json := .obj [("id", .str "A"), ("name", .str "trackA")]

/-- Item of the first fetch's page 2 in the stale-reply scenario. -/
def cexItemB : Json := .obj [("id", .str "B"), ("name", .str "trackB")]

/-- Page-1 request of the first fetch in the stale-reply scenario. -/
def cexReq1 : NetRequest := firstPageRequest "7" 100

/-- Page-2 continuation request of the first fetch in the stale-reply
scenario; it is still in flight when the second fetch starts. -/
def cexReq2 : NetRequest := pageTwoRequest "7"

/-- State after the first fetchChannelTracks call of the scenario. -/
def cexState1 : ClientState := (fetchChannelTracks cexClient0 "7" 0 100).1

/-- State after the first fetch's page 1 arrived (partial accumulation
live, page 2 in flight). -/
def cexState2 : ClientState :=
  (handleResponse cexState1 (replyTo cexReq1 (.ok (pageEnvelope [cexItemA] 1 2 true)))).1

/-- State after the second fetchChannelTracks call superseded the first. -/
def cexState3 : ClientState := (fetchChannelTracks cexState2 "7" 0 100).1

/-- Track stored in the live aggregation state of the witness client. -/
def wTrack : Track := { id := "a1" }

/-- Partial aggregation stored under key "channel:7" in the witness
client. -/
def wPR : PaginatedRequest := { channelId := "7", accumulatedTracks := [wTrack] }

/-- Witness client with a configured server URL and one live aggregation. -/
def wState : ClientState :=
  { serverUrl := "http://s", paginatedRequests := [("channel:7", wPR)] }

/-- Reply whose envelope carries success=false. -/
def wFailReply : Reply :=
  { requestType := "fetchChannelTracks", channelId := "7", page := 2,
    body := .ok (.obj [("success", .bool false), ("error", .str "boom")]) }

/-- Reply whose payload failed to parse as JSON. -/
def wMalReply : Reply :=
  { requestType := "fetchChannelTracks", channelId := "7", page := 2,
    body := .error "unterminated object" }

/-- Download reply with HTTP status 404. -/
def w404 : DownloadReply := { statusCode := 404, data := [0x49, 0x44, 0x33, 0x04] }

/-- Download reply with status 200 but an HTML content type. -/
def wHtml : DownloadReply :=
  { statusCode := 200, contentType := "Text/HTML; charset=utf-8", data := [60, 104] }

/-- Download reply with status 200, an audio content type and an empty
payload. -/
def wEmptyBody : DownloadReply := { statusCode := 200, contentType := "audio/mpeg", data := [] }

/-! ## Helper lemmas shared by the aggregation theorems -/

lemma two_page_first (st : ClientState) (cid : String) (items1 : List Json)
    (h : lookupKey ("channel:" ++ cid) st.paginatedRequests = none) :
    handleResponse st (tracksPageReply cid 1 (.ok (pageEnvelope items1 1 2 true))) =
      (pageOneState st cid items1, [.requestStarted], [pageTwoRequest cid]) := by
  simp [handleResponse, tracksPageReply, pageEnvelope, docObject, objValue, toBoolD,
    parsePagination, toIntD, extractItemArray, pageOneState, pageOnePR, pageTwoRequest,
    fetchChannelTracksPage, h]

lemma two_page_second (st : ClientState) (cid : String) (items1 items2 : List Json)
    (h : lookupKey ("channel:" ++ cid) st.paginatedRequests = none) :
    handleResponse (pageOneState st cid items1)
        (tracksPageReply cid 2 (.ok (pageEnvelope items2 2 2 false))) =
      (st, [.tracksLoaded cid (stampTracks cid items1 ++ stampTracks cid items2)], []) := by
  simp [handleResponse, tracksPageReply, pageEnvelope, docObject, objValue, toBoolD,
    parsePagination, toIntD, extractItemArray, pageOneState, pageOnePR,
    lookupKey_insertKey_self, removeKey_insertKey, removeKey_of_lookupKey_none _ _ h]

lemma suffix_append_cancel {α : Type} (a c b : List α) (h : a ++ b <:+ c ++ b) :
    a <:+ c := by
  obtain ⟨t, ht⟩ := h
  refine ⟨t, ?_⟩
  have h2 : (t ++ a) ++ b = c ++ b := by
    rw [List.append_assoc]
    exact ht
  exact List.append_cancel_right h2

/-! ## Claim theorems -/

/-- Claim C1 (cache reuse law, tfmtrackmodel.cpp lines 87-109): an
existing file at the derived cache path is reused iff its size is
strictly greater than 1000 bytes and the expected size is unknown
(<= 0) or matched exactly; in every other case the file is deleted and
the track is treated as absent, and re-probing the deleted file yields
absent again; a missing file is absent and nothing is deleted. -/
theorem cache_reuse_law (sz expectedSize : Int) :
    ((cacheProbe (some sz) expectedSize).1 = .reused ↔
      (sz > 1000 ∧ (expectedSize ≤ 0 ∨ sz = expectedSize)))
    ∧ ((cacheProbe (some sz) expectedSize).1 = .reused →
        cacheProbe (some sz) expectedSize = (.reused, some sz))
    ∧ ((cacheProbe (some sz) expectedSize).1 = .absent →
        cacheProbe (some sz) expectedSize = (.absent, none) ∧
        cacheProbe (cacheProbe (some sz) expectedSize).2 expectedSize = (.absent, none))
    ∧ cacheProbe none expectedSize = (.absent, none) := by
  by_cases hc : sz > 1000 ∧ (expectedSize ≤ 0 ∨ sz = expectedSize) <;>
    simp [cacheProbe, hc]

/-- Witness for C1: a 5000-byte cached file with expected size 5000 is
reused; a 500-byte file with expected size 0 is deleted and re-probing
yields absent. -/
theorem cache_reuse_law_witness :
    (((cacheProbe (some 5000) 5000).1 = .reused ↔
        ((5000 : Int) > 1000 ∧ ((5000 : Int) ≤ 0 ∨ (5000 : Int) = 5000)))
      ∧ ((cacheProbe (some 5000) 5000).1 = .reused →
          cacheProbe (some 5000) 5000 = (.reused, some 5000))
      ∧ ((cacheProbe (some 5000) 5000).1 = .absent →
          cacheProbe (some 5000) 5000 = (.absent, none) ∧
          cacheProbe (cacheProbe (some 5000) 5000).2 5000 = (.absent, none))
      ∧ cacheProbe none 5000 = (.absent, none))
    ∧ (((cacheProbe (some 500) 0).1 = .reused ↔
        ((500 : Int) > 1000 ∧ ((0 : Int) ≤ 0 ∨ (500 : Int) = 0)))
      ∧ ((cacheProbe (some 500) 0).1 = .reused →
          cacheProbe (some 500) 0 = (.reused, some 500))
      ∧ ((cacheProbe (some 500) 0).1 = .absent →
          cacheProbe (some 500) 0 = (.absent, none) ∧
          cacheProbe (cacheProbe (some 500) 0).2 0 = (.absent, none))
      ∧ cacheProbe none 0 = (.absent, none)) :=
  ⟨cache_reuse_law 5000 5000, cache_reuse_law 500 0⟩

/-- Claim C2, counterexample (tfmapiclient.cpp lines 274-301): handling a
success=false envelope returns early without touching m_paginatedRequests,
so the partial AggregationState for the key is NOT removed — it is still
present, unchanged, after the failure. -/
theorem envelope_failure_keeps_state_cex :
    (handleResponse wState wFailReply).1 = wState
    ∧ lookupKey "channel:7" (handleResponse wState wFailReply).1.paginatedRequests = some wPR
    ∧ (handleResponse wState wFailReply).2.1 = [.apiError "boom"] := by
  decide

/-- Claim C2 as amended (tfmapiclient.cpp lines 274-301): a page response
whose payload is malformed JSON, or whose envelope has success=false,
aborts the fetch with a single apiError emission, issues no further
request, and leaves the client state — including any partial
AggregationState for the key — unchanged (the partial state is not
removed; it is discarded only when a new fetch for the same key starts). -/
theorem envelope_failure_abort (st : ClientState) (reply : Reply) :
    (∀ e, reply.body = .error e →
      handleResponse st reply = (st, [.apiError ("JSON parse error: " ++ e)], []))
    ∧ (∀ doc, reply.body = .ok doc →
        toBoolD (objValue (docObject doc) "success") false = false →
        ∃ msg, handleResponse st reply = (st, [.apiError msg], [])) := by
  constructor
  · intro e he
    simp [handleResponse, he]
  · intro doc hd hs
    unfold handleResponse
    rw [hd]
    simp only [hs]
    exact ⟨_, rfl⟩

/-- Witness for C2: the two failure modes at concrete inputs. -/
theorem envelope_failure_abort_witness :
    handleResponse wState wMalReply =
      (wState, [.apiError "JSON parse error: unterminated object"], [])
    ∧ ∃ msg, handleResponse wState wFailReply = (wState, [.apiError msg], []) :=
  ⟨(envelope_failure_abort wState wMalReply).1 "unterminated object" rfl,
   (envelope_failure_abort wState wFailReply).2 _ rfl (by decide)⟩

/-- Claim C4 (aggregation completeness and order, tfmapiclient.cpp lines
312-362 and 97-111): for a fetch whose responses arrive as page 1 with
hasNext=true and then page 2 with hasNext=false, page 1 accumulates its
items and issues the page-2 request, and page 2 emits exactly the page-1
item list followed by the page-2 item list, in arrival order then
within-page order, with no other emission; afterwards the
AggregationState for the key is removed (the state returns to the
pre-fetch state, whose key is absent). -/
theorem aggregation_two_page_complete (st : ClientState) (cid : String)
    (items1 items2 : List Json)
    (h : lookupKey ("channel:" ++ cid) st.paginatedRequests = none) :
    handleResponse st (tracksPageReply cid 1 (.ok (pageEnvelope items1 1 2 true))) =
      (pageOneState st cid items1, [.requestStarted], [pageTwoRequest cid])
    ∧ handleResponse (pageOneState st cid items1)
        (tracksPageReply cid 2 (.ok (pageEnvelope items2 2 2 false))) =
      (st, [.tracksLoaded cid (stampTracks cid items1 ++ stampTracks cid items2)], [])
    ∧ lookupKey ("channel:" ++ cid)
        (handleResponse (pageOneState st cid items1)
          (tracksPageReply cid 2 (.ok (pageEnvelope items2 2 2 false)))).1.paginatedRequests =
        none := by
  refine ⟨two_page_first st cid items1 h, two_page_second st cid items1 items2 h, ?_⟩
  rw [two_page_second st cid items1 items2 h]
  exact h

/-- Witness for C4: a two-page run with one item per page from the empty
client. -/
theorem aggregation_two_page_complete_witness :
    handleResponse ({} : ClientState)
        (tracksPageReply "c" 1 (.ok (pageEnvelope [cexItemA] 1 2 true))) =
      (pageOneState {} "c" [cexItemA], [.requestStarted], [pageTwoRequest "c"])
    ∧ handleResponse (pageOneState {} "c" [cexItemA])
        (tracksPageReply "c" 2 (.ok (pageEnvelope [cexItemB] 2 2 false))) =
      ({}, [.tracksLoaded "c" (stampTracks "c" [cexItemA] ++ stampTracks "c" [cexItemB])], [])
    ∧ lookupKey "channel:c"
        (handleResponse (pageOneState {} "c" [cexItemA])
          (tracksPageReply "c" 2 (.ok (pageEnvelope [cexItemB] 2 2 false)))).1.paginatedRequests =
        none :=
  aggregation_two_page_complete {} "c" [cexItemA] [cexItemB] rfl

/-- Claim C3, counterexample (tfmapiclient.cpp lines 79-95, 342-362): the
first fetch issues page 1 (cexReq1); handling its page-1 response leaves a
partial accumulation and issues the page-2 continuation (cexReq2), which
stays in flight; the second fetchChannelTracks for the same key then
discards the partial state; but when the superseded fetch's page-2
response is delivered afterwards, handleResponse re-creates the state and
— since that stale page reports hasNext=false — immediately emits a
tracksLoaded result for the key consisting exactly of the superseded
fetch's page-2 entries, so an emitted result for the key does contain
entries from a page of the superseded first fetch. -/
theorem aggregation_reset_stale_reply_cex :
    (fetchChannelTracks cexClient0 "7" 0 100).2.2 = [cexReq1]
    ∧ (handleResponse cexState1 (replyTo cexReq1 (.ok (pageEnvelope [cexItemA] 1 2 true)))).2.2 =
        [cexReq2]
    ∧ (lookupKey "channel:7" cexState2.paginatedRequests).isSome = true
    ∧ lookupKey "channel:7" cexState3.paginatedRequests = none
    ∧ (handleResponse cexState3 (replyTo cexReq2 (.ok (pageEnvelope [cexItemB] 2 2 false)))).2.1 =
        [.tracksLoaded "7" (stampTracks "7" [cexItemB])]
    ∧ stampTracks "7" [cexItemB] ≠ [] := by
  decide

/-- Claim C3 as amended (tfmapiclient.cpp lines 79-95, 342-362): a second
fetchChannelTracks for a key discards any live partial accumulation
unconditionally and restarts from page 1; provided no response belonging
to the superseded fetch is delivered after the reset, the eventually
emitted result for the key consists exactly of the second fetch's pages
in order (a still-in-flight response of the superseded fetch delivered
after the reset can, however, be accumulated and emitted for that key). -/
theorem aggregation_reset (st : ClientState) (cid : String) (off lim : Int)
    (items1 items2 : List Json) (h : st.serverUrl ≠ "") :
    fetchChannelTracks st cid off lim =
      (resetState st cid, [.requestStarted], [firstPageRequest cid lim])
    ∧ lookupKey ("channel:" ++ cid) (resetState st cid).paginatedRequests = none
    ∧ handleResponse (resetState st cid)
        (tracksPageReply cid 1 (.ok (pageEnvelope items1 1 2 true))) =
      (pageOneState (resetState st cid) cid items1, [.requestStarted], [pageTwoRequest cid])
    ∧ handleResponse (pageOneState (resetState st cid) cid items1)
        (tracksPageReply cid 2 (.ok (pageEnvelope items2 2 2 false))) =
      (resetState st cid,
        [.tracksLoaded cid (stampTracks cid items1 ++ stampTracks cid items2)], []) := by
  have h0 : lookupKey ("channel:" ++ cid) (resetState st cid).paginatedRequests = none := by
    simp [resetState, lookupKey_removeKey_self]
  refine ⟨?_, h0, two_page_first _ cid items1 h0, two_page_second _ cid items1 items2 h0⟩
  simp [fetchChannelTracks, fetchChannelTracksPage, resetState, firstPageRequest, h]

/-- Witness for C3: the second fetch on a client holding a live partial
accumulation for channel 7, followed by its own two pages. -/
theorem aggregation_reset_witness :
    fetchChannelTracks wState "7" 0 100 =
      (resetState wState "7", [.requestStarted], [firstPageRequest "7" 100])
    ∧ lookupKey "channel:7" (resetState wState "7").paginatedRequests = none
    ∧ handleResponse (resetState wState "7")
        (tracksPageReply "7" 1 (.ok (pageEnvelope [cexItemA] 1 2 true))) =
      (pageOneState (resetState wState "7") "7" [cexItemA], [.requestStarted], [pageTwoRequest "7"])
    ∧ handleResponse (pageOneState (resetState wState "7") "7" [cexItemA])
        (tracksPageReply "7" 2 (.ok (pageEnvelope [cexItemB] 2 2 false))) =
      (resetState wState "7",
        [.tracksLoaded "7" (stampTracks "7" [cexItemA] ++ stampTracks "7" [cexItemB])], []) :=
  aggregation_reset wState "7" 0 100 [cexItemA] [cexItemB] (by decide)

/-- Claim C6 (configuration gate, tfmapiclient.cpp lines 66-220): every
fetch operation called while the server URL is empty emits exactly one
apiError with the configuration message, issues no network request, and
leaves the client state unchanged. -/
theorem configuration_gate (st : ClientState) (h : st.serverUrl = "")
    (channelId folderId query folderPath : String) (offset limit : Int) :
    fetchChannels st = (st, [.apiError cfgErrMsg], [])
    ∧ fetchChannelTracks st channelId offset limit = (st, [.apiError cfgErrMsg], [])
    ∧ fetchFolderContents st channelId folderId offset limit = (st, [.apiError cfgErrMsg], [])
    ∧ fetchFavorites st = (st, [.apiError cfgErrMsg], [])
    ∧ fetchLocalFolders st = (st, [.apiError cfgErrMsg], [])
    ∧ fetchLocalTracks st folderPath = (st, [.apiError cfgErrMsg], [])
    ∧ searchTracks st query offset limit = (st, [.apiError cfgErrMsg], []) := by
  refine ⟨?_, ?_, ?_, ?_, ?_, ?_, ?_⟩ <;>
    simp [fetchChannels, fetchChannelTracks, fetchFolderContents, fetchFavorites,
      fetchLocalFolders, fetchLocalTracks, searchTracks, h]

/-- Witness for C6: an unconfigured client at concrete arguments. -/
theorem configuration_gate_witness :
    fetchChannels ({} : ClientState) = ({}, [.apiError cfgErrMsg], [])
    ∧ fetchChannelTracks ({} : ClientState) "7" 0 100 = ({}, [.apiError cfgErrMsg], [])
    ∧ fetchFolderContents ({} : ClientState) "7" "f1" 0 100 = ({}, [.apiError cfgErrMsg], [])
    ∧ fetchFavorites ({} : ClientState) = ({}, [.apiError cfgErrMsg], [])
    ∧ fetchLocalFolders ({} : ClientState) = ({}, [.apiError cfgErrMsg], [])
    ∧ fetchLocalTracks ({} : ClientState) "/music" = ({}, [.apiError cfgErrMsg], [])
    ∧ searchTracks ({} : ClientState) "query" 0 50 = ({}, [.apiError cfgErrMsg], []) :=
  configuration_gate {} rfl "7" "f1" "query" "/music" 0 100

/-- Claim C7 (HTTP and content-type gate, tfmtrackmodel.cpp lines 244-264):
downloadTrackSync fails with no resulting path and performs no file-system
operation whenever the HTTP status is not 200, and likewise when the
status is 200 but the Content-Type contains "text/html"
(case-insensitively, the source's test for an HTML error page). -/
theorem download_http_gate (reply : DownloadReply) (write : WriteOutcome)
    (destPath : String) (expectedSize : Int) :
    (reply.statusCode ≠ 200 →
      downloadTrackSync reply write destPath expectedSize = (none, []))
    ∧ (containsTextHtmlCI reply.contentType = true →
      downloadTrackSync reply write destPath expectedSize = (none, [])) := by
  constructor <;> intro h <;> unfold downloadTrackSync <;> split_ifs <;> simp_all

/-- Witness for C7: an HTTP 404 and an HTML page response both fail with
no write. -/
theorem download_http_gate_witness :
    downloadTrackSync w404 {} "/cache/t.mp3" 5000 = (none, [])
    ∧ downloadTrackSync wHtml {} "/cache/t.mp3" 5000 = (none, []) :=
  ⟨(download_http_gate w404 {} "/cache/t.mp3" 5000).1 (by decide),
   (download_http_gate wHtml {} "/cache/t.mp3" 5000).2 (by decide)⟩

/-- Claim C9 (empty body rejected, tfmtrackmodel.cpp lines 270-276): a 200
response with a non-HTML content type and an empty payload fails with no
resulting path and no file written, for every Content-Length and expected
size, so a successful download always wrote at least one byte. -/
theorem download_empty_body_rejected (reply : DownloadReply) (write : WriteOutcome)
    (destPath : String) (expectedSize : Int)
    (hstatus : reply.statusCode = 200)
    (hct : containsTextHtmlCI reply.contentType = false)
    (hdata : reply.data = []) :
    downloadTrackSync reply write destPath expectedSize = (none, []) := by
  cases ht : reply.timedOut <;> cases hn : reply.networkError <;>
    simp [downloadTrackSync, ht, hn, hstatus, hct, hdata]

/-- Witness for C9: a 200 audio/mpeg response with an empty body. -/
theorem download_empty_body_rejected_witness :
    downloadTrackSync wEmptyBody {} "/cache/t.mp3" 5000 = (none, []) :=
  download_empty_body_rejected wEmptyBody {} "/cache/t.mp3" 5000
    (by decide) (by decide) (by decide)

/-- Claim C8 (pagination envelope defaults, tfmapiclient.cpp lines
519-534): when the pagination member is absent from the response object
every field takes its default (page 1, pageSize 100, totalItems 0,
totalPages 1, hasNext false, hasPrevious false), and when the pagination
object is present each individual missing field takes the same default. -/
theorem pagination_defaults (responseObj pagination : List (String × Json)) :
    (objValue responseObj "pagination" = none →
      parsePagination responseObj =
        { page := 1, pageSize := 100, totalItems := 0, totalPages := 1,
          hasNext := false, hasPrevious := false })
    ∧ (objValue responseObj "pagination" = some (.obj pagination) →
        (objValue pagination "page" = none → (parsePagination responseObj).page = 1)
        ∧ (objValue pagination "pageSize" = none → (parsePagination responseObj).pageSize = 100)
        ∧ (objValue pagination "totalItems" = none → (parsePagination responseObj).totalItems = 0)
        ∧ (objValue pagination "totalPages" = none → (parsePagination responseObj).totalPages = 1)
        ∧ (objValue pagination "hasNext" = none → (parsePagination responseObj).hasNext = false)
        ∧ (objValue pagination "hasPrevious" = none →
            (parsePagination responseObj).hasPrevious = false)) := by
  constructor
  · intro h
    simp [parsePagination, h]
  · intro h
    refine ⟨?_, ?_, ?_, ?_, ?_, ?_⟩ <;> intro hf <;>
      simp [parsePagination, h, hf, toIntD, toBoolD]

/-- Witness for C8: a response without pagination, and one whose
pagination object has none of the six fields. -/
theorem pagination_defaults_witness :
    parsePagination [("success", Json.bool true)] =
      { page := 1, pageSize := 100, totalItems := 0, totalPages := 1,
        hasNext := false, hasPrevious := false }
    ∧ (parsePagination [("pagination", Json.obj [("foo", Json.num 0)])]).page = 1
    ∧ (parsePagination [("pagination", Json.obj [("foo", Json.num 0)])]).pageSize = 100
    ∧ (parsePagination [("pagination", Json.obj [("foo", Json.num 0)])]).totalItems = 0
    ∧ (parsePagination [("pagination", Json.obj [("foo", Json.num 0)])]).totalPages = 1
    ∧ (parsePagination [("pagination", Json.obj [("foo", Json.num 0)])]).hasNext = false
    ∧ (parsePagination [("pagination", Json.obj [("foo", Json.num 0)])]).hasPrevious = false :=
  ⟨(pagination_defaults [("success", Json.bool true)] []).1 rfl,
   ((pagination_defaults [("pagination", Json.obj [("foo", Json.num 0)])]
        [("foo", Json.num 0)]).2 rfl).1 rfl,
   ((pagination_defaults [("pagination", Json.obj [("foo", Json.num 0)])]
        [("foo", Json.num 0)]).2 rfl).2.1 rfl,
   ((pagination_defaults [("pagination", Json.obj [("foo", Json.num 0)])]
        [("foo", Json.num 0)]).2 rfl).2.2.1 rfl,
   ((pagination_defaults [("pagination", Json.obj [("foo", Json.num 0)])]
        [("foo", Json.num 0)]).2 rfl).2.2.2.1 rfl,
   ((pagination_defaults [("pagination", Json.obj [("foo", Json.num 0)])]
        [("foo", Json.num 0)]).2 rfl).2.2.2.2.1 rfl,
   ((pagination_defaults [("pagination", Json.obj [("foo", Json.num 0)])]
        [("foo", Json.num 0)]).2 rfl).2.2.2.2.2 rfl⟩

/-- Bridge between the Bool-valued case-insensitive endsWith and the
list-suffix relation on lowercased characters. -/
lemma endsWithCI_iff (s e : List Char) :
    endsWithCI s e = true ↔ (e.map Char.toLower) <:+ (s.map Char.toLower) := by
  simp [endsWithCI, List.isSuffixOf_iff_suffix]

/-- Claim C10, counterexample (tfmtrackmodel.cpp lines 70-82, 352-381):
for the sanitized identifier "x.mp3.mp3" (unchanged by sanitization) the
inferred extension is ".mp3"; the stripping removes exactly one copy of
the suffix, so the derived cache filename is "x.mp3.mp3" again — and it
ends with two consecutive occurrences of the inferred extension, not
exactly one. -/
theorem doubled_extension_cex :
    sanitizeExternalId "x.mp3.mp3".toList = "x.mp3.mp3".toList
    ∧ getFileExtension "x.mp3.mp3".toList [] = ".mp3".toList
    ∧ buildCacheFileName "x.mp3.mp3".toList ".mp3".toList = "x.mp3.mp3".toList
    ∧ endsWithCI (buildCacheFileName "x.mp3.mp3".toList ".mp3".toList)
        (".mp3".toList ++ ".mp3".toList) = true := by
  decide

/-- Claim C10 as amended (tfmtrackmodel.cpp lines 70-82): the derived
cache filename always ends with the inferred extension; when the
sanitized identifier ends with the extension (case-insensitively) exactly
one copy of that suffix is stripped before the extension is appended; and
the filename ends with a doubled extension only when the sanitized
identifier itself already ended (case-insensitively) with two consecutive
copies of the extension. -/
theorem cache_extension_single (sanitizedId fileExt : List Char) :
    fileExt <:+ buildCacheFileName sanitizedId fileExt
    ∧ (endsWithCI sanitizedId fileExt = true →
        buildCacheFileName sanitizedId fileExt =
          sanitizedId.take (sanitizedId.length - fileExt.length) ++ fileExt)
    ∧ (endsWithCI sanitizedId (fileExt ++ fileExt) = false →
        endsWithCI (buildCacheFileName sanitizedId fileExt) (fileExt ++ fileExt) = false) := by
  refine ⟨?_, ?_, ?_⟩
  · unfold buildCacheFileName
    split_ifs <;> exact List.suffix_append _ _
  · intro h
    simp [buildCacheFileName, h]
  · intro hno
    by_cases hs : endsWithCI sanitizedId fileExt
    case neg =>
      simp only [Bool.not_eq_true] at hs
      simp [buildCacheFileName, hs]
      rw [Bool.eq_false_iff]
      intro hcon
      rw [endsWithCI_iff, List.map_append, List.map_append] at hcon
      have hle : (fileExt.map Char.toLower) <:+ (sanitizedId.map Char.toLower) :=
        suffix_append_cancel _ _ _ hcon
      rw [← endsWithCI_iff] at hle
      rw [hs] at hle
      exact Bool.false_ne_true hle
    case pos =>
      simp [buildCacheFileName, hs]
      rw [Bool.eq_false_iff]
      intro hcon
      rw [endsWithCI_iff, List.map_append, List.map_append] at hcon
      have h1 := suffix_append_cancel _ _ _ hcon
      rw [endsWithCI_iff] at hs
      obtain ⟨p, hp⟩ := hs
      have hlen : p.length = sanitizedId.length - fileExt.length := by
        have hl := congrArg List.length hp
        simp at hl
        omega
      have htake : (sanitizedId.take (sanitizedId.length - fileExt.length)).map Char.toLower
          = p := by
        rw [List.map_take, ← hp, List.take_left' hlen]
      rw [htake] at h1
      obtain ⟨q, hq⟩ := h1
      have hdouble : endsWithCI sanitizedId (fileExt ++ fileExt) = true := by
        rw [endsWithCI_iff, List.map_append]
        refine ⟨q, ?_⟩
        rw [← List.append_assoc, hq, hp]
      rw [hno] at hdouble
      exact Bool.false_ne_true hdouble

/-- Witness for C10: a plain identifier and one already carrying the
extension. -/
theorem cache_extension_single_witness :
    (".mp3".toList <:+ buildCacheFileName "abc".toList ".mp3".toList
      ∧ (endsWithCI "abc".toList ".mp3".toList = true →
          buildCacheFileName "abc".toList ".mp3".toList =
            "abc".toList.take ("abc".toList.length - ".mp3".toList.length) ++ ".mp3".toList)
      ∧ (endsWithCI "abc".toList (".mp3".toList ++ ".mp3".toList) = false →
          endsWithCI (buildCacheFileName "abc".toList ".mp3".toList)
            (".mp3".toList ++ ".mp3".toList) = false))
    ∧ (".mp3".toList <:+ buildCacheFileName "song.MP3".toList ".mp3".toList
      ∧ (endsWithCI "song.MP3".toList ".mp3".toList = true →
          buildCacheFileName "song.MP3".toList ".mp3".toList =
            "song.MP3".toList.take ("song.MP3".toList.length - ".mp3".toList.length) ++
              ".mp3".toList)
      ∧ (endsWithCI "song.MP3".toList (".mp3".toList ++ ".mp3".toList) = false →
          endsWithCI (buildCacheFileName "song.MP3".toList ".mp3".toList)
            (".mp3".toList ++ ".mp3".toList) = false)) :=
  ⟨cache_extension_single "abc".toList ".mp3".toList,
   cache_extension_single "song.MP3".toList ".mp3".toList⟩
